import Mathlib

/-!
Verification of the NeuralDub frontend API client and page logic.

Shallow embedding of the TypeScript sources under
`src/frontend/neuraldub/src/`: the `fetch`-based API wrappers
(`utils/api.ts`, `utils/whisperService.ts`, `utils/translationService.ts`)
and the page-level state machines (`pages/LipSync.tsx`,
`pages/Translator.tsx`, `pages/TranslatePage.tsx`).

HTTP is modelled by a request value (URL and method) and a response value
(status, statusText and an already-parsed body).  A wrapper is embedded as
two pure functions: the list of requests it issues (all wrappers issue
exactly one `fetch`, with no loop or retry around it) and a handler mapping
the response for that single request to `Except String α`, where `.error`
models a thrown `Error` and `.ok` the resolved value.  JavaScript
truthiness of optional strings and numbers (`x || default`, `x?.[i]`) is
modelled by explicit helpers.
-/

/-- An HTTP request as issued by `fetch`: URL and method. -/
structure HttpRequest where
  url : String
  method : String
  deriving DecidableEq, Repr

/-- An HTTP response with an already-parsed body of type `β`:
`status` and `statusText` as on the `fetch` `Response` object. -/
structure HttpResponse (β : Type) where
  status : Nat
  statusText : String
  body : β
  deriving Repr

/-- `Response.ok` in the fetch API: status in the range 200–299. -/
def HttpResponse.isOk (r : HttpResponse β) : Bool :=
  200 ≤ r.status && r.status ≤ 299

/-- JavaScript `x || d` for an optional string `x` (`none` = absent or
`undefined`): the default is taken when `x` is missing or empty (falsy). -/
def jsOrStr (x : Option String) (d : String) : String :=
  match x with
  | some s => if s.isEmpty then d else s
  | none => d

/-- JavaScript `x || d` for an optional number `x` (`none` = absent or
`undefined`): the default is taken when `x` is missing or `0` (falsy). -/
def jsOrNum (x : Option ℚ) (d : ℚ) : ℚ :=
  match x with
  | some q => if q = 0 then d else q
  | none => d

namespace Api

/-- `API_BASE_URL` from `utils/api.ts` (also inlined in
`whisperService.ts` and `translationService.ts`):
`import.meta.env.VITE_API_URL || "http://localhost:5000/api"`.
`env` is the optional `VITE_API_URL` environment value. -/
def API_BASE_URL (env : Option String) : String :=
  jsOrStr env "http://localhost:5000/api"

/-- `API_ENDPOINTS.WHISPER_TRANSCRIBE` in `utils/api.ts`. -/
def WHISPER_TRANSCRIBE : String := "/speech/transcribe"

/-- `API_ENDPOINTS.TRANSLATE` in `utils/api.ts`. -/
def TRANSLATE : String := "/translate"

/-- `API_ENDPOINTS.TRANSLATE_BATCH` in `utils/api.ts`. -/
def TRANSLATE_BATCH : String := "/translate/batch"

/-- `API_ENDPOINTS.LIP_SYNC_GENERATE` in `utils/api.ts`. -/
def LIP_SYNC_GENERATE : String := "/lip-sync/generate"

/-- `API_ENDPOINTS.LIP_SYNC_STATUS` in `utils/api.ts`. -/
def LIP_SYNC_STATUS (jobId : String) : String := "/lip-sync/status/" ++ jobId

/-- `API_ENDPOINTS.LIP_SYNC_DOWNLOAD` in `utils/api.ts`. -/
def LIP_SYNC_DOWNLOAD (jobId : String) : String := "/lip-sync/download/" ++ jobId

/-- `API_ENDPOINTS.LIP_SYNC_HEALTH` in `utils/api.ts`. -/
def LIP_SYNC_HEALTH : String := "/lip-sync/health"

/-- The single request issued by `apiCall` (`api.ts` lines 46–63):
one `fetch` of `API_BASE_URL + endpoint`, no loop or retry. -/
def apiCallRequests (env : Option String) (endpoint method : String) :
    List HttpRequest :=
  [{ url := API_BASE_URL env ++ endpoint, method := method }]

/-- The response handling of `apiCall`: throw `API Error: <statusText>` on a
non-ok status, otherwise resolve with the parsed JSON body. -/
def apiCall (resp : HttpResponse β) : Except String β :=
  if resp.isOk then Except.ok resp.body
  else Except.error ("API Error: " ++ resp.statusText)

/-- Parsed body of a response to `POST /lip-sync/generate`: the code reads
`job_id` on success and `error` on failure (`none` = field absent). -/
structure GenerateBody where
  job_id : String
  error : Option String
  deriving Repr

/-- The single request issued by `lipSyncApi.generate` (`api.ts` 68–85). -/
def generateRequests (env : Option String) : List HttpRequest :=
  [{ url := API_BASE_URL env ++ LIP_SYNC_GENERATE, method := "POST" }]

/-- Response handling of `lipSyncApi.generate`: on a non-ok status throw
`error.error || "Failed to generate lip sync"`, else resolve the body. -/
def generate (resp : HttpResponse GenerateBody) : Except String GenerateBody :=
  if resp.isOk then Except.ok resp.body
  else Except.error (jsOrStr resp.body.error "Failed to generate lip sync")

/-- Status payload returned by `GET /lip-sync/status/:id` as read by the
code: `status`, optional `progress`, `stage` and `error` fields. -/
structure JobStatusBody where
  status : String
  progress : Option ℚ
  stage : Option String
  error : Option String
  deriving Repr

/-- The single request issued by `lipSyncApi.getStatus` (`api.ts` 88–97). -/
def getStatusRequests (env : Option String) (jobId : String) :
    List HttpRequest :=
  [{ url := API_BASE_URL env ++ LIP_SYNC_STATUS jobId, method := "GET" }]

/-- Response handling of `lipSyncApi.getStatus`: on a non-ok status throw
`error.error || "Failed to get status"`, else resolve the parsed body. -/
def getStatus (resp : HttpResponse JobStatusBody) :
    Except String JobStatusBody :=
  if resp.isOk then Except.ok resp.body
  else Except.error (jsOrStr resp.body.error "Failed to get status")

/-- Opaque stand-in for a binary `Blob` body. -/
structure Blob where
  data : List Nat
  deriving DecidableEq, Repr

/-- The single request issued by `lipSyncApi.download` (`api.ts` 100–108). -/
def downloadRequests (env : Option String) (jobId : String) :
    List HttpRequest :=
  [{ url := API_BASE_URL env ++ LIP_SYNC_DOWNLOAD jobId, method := "GET" }]

/-- Response handling of `lipSyncApi.download`: throw
`Failed to download video` on a non-ok status, else resolve the blob. -/
def download (resp : HttpResponse Blob) : Except String Blob :=
  if resp.isOk then Except.ok resp.body
  else Except.error "Failed to download video"

/-- `lipSyncApi.getDownloadUrl` (`api.ts` 111–113): pure URL construction,
no request at all. -/
def getDownloadUrl (env : Option String) (jobId : String) : String :=
  API_BASE_URL env ++ LIP_SYNC_DOWNLOAD jobId

/-- The single request issued by `lipSyncApi.checkHealth` (`api.ts` 116–119). -/
def checkHealthRequests (env : Option String) : List HttpRequest :=
  [{ url := API_BASE_URL env ++ LIP_SYNC_HEALTH, method := "GET" }]

/-- Response handling of `lipSyncApi.checkHealth`: the code returns
`response.json()` without inspecting `response.ok`, so it never throws on
the HTTP status. -/
def checkHealth (resp : HttpResponse β) : Except String β :=
  Except.ok resp.body

end Api

namespace Whisper

/-- A browser `File` as far as `whisperService.ts` inspects it:
MIME `type` and `size` in bytes. -/
structure AudioFile where
  type : String
  size : Nat
  deriving DecidableEq, Repr

/-- The single request issued by `transcribeAudio`
(`whisperService.ts` 34–57): one `POST` to `<base>/speech/transcribe`. -/
def transcribeAudioRequests (env : Option String) : List HttpRequest :=
  [{ url := Api.API_BASE_URL env ++ "/speech/transcribe", method := "POST" }]

/-- Response handling of `transcribeAudio`: throw
`Transcription failed: <statusText>` when the response is not ok, else
resolve the parsed JSON body. -/
def transcribeAudio (resp : HttpResponse β) : Except String β :=
  if resp.isOk then Except.ok resp.body
  else Except.error ("Transcription failed: " ++ resp.statusText)

/-- Body of a response to `POST /speech/detect-language` as read by the
code: only the `language` field is used. -/
structure DetectLanguageBody where
  language : String
  deriving DecidableEq, Repr

/-- The single request issued by `detectLanguage`
(`whisperService.ts` 140–158). -/
def detectLanguageRequests (env : Option String) : List HttpRequest :=
  [{ url := Api.API_BASE_URL env ++ "/speech/detect-language",
     method := "POST" }]

/-- Response handling of `detectLanguage`: throw
`Language detection failed` when the response is not ok, else resolve
`data.language` from the parsed body. -/
def detectLanguage (resp : HttpResponse DetectLanguageBody) :
    Except String String :=
  if resp.isOk then Except.ok resp.body.language
  else Except.error "Language detection failed"

end Whisper

/-- The `{ valid: boolean, error?: string }` result shape shared by
`validateAudioFile` and `validateTranslationRequest`. -/
structure ValidationResult where
  valid : Bool
  error : Option String
  deriving DecidableEq, Repr

namespace Whisper

/-- Two-digit rendering of `h % 100` used by `mbToFixed2`. -/
def pad2 (r : Nat) : String :=
  if r < 10 then "0" ++ toString r else toString r

/-- Models `(size / 1024 / 1024).toFixed(2)` from
`whisperService.ts` line 130: megabytes rounded to two decimals (half-up;
binary floating-point rounding is approximated by exact rationals). -/
def mbToFixed2 (size : Nat) : String :=
  let h := (size * 100 + 524288) / 1048576
  toString (h / 100) ++ "." ++ pad2 (h % 100)

/-- `validateAudioFile` (`whisperService.ts` 107–135): reject an
unsupported MIME type first, then a size above 25 MB, else accept. -/
def validateAudioFile (file : AudioFile) : ValidationResult :=
  let maxSize := 25 * 1024 * 1024
  let validFormats :=
    ["audio/mpeg", "audio/wav", "audio/ogg", "audio/mp4", "audio/flac"]
  if !(validFormats.contains file.type) then
    { valid := false,
      error := some ("Unsupported format: " ++ file.type ++
        ". Supported: MP3, WAV, OGG, MP4, FLAC") }
  else if file.size > maxSize then
    { valid := false,
      error := some ("File too large: " ++ mbToFixed2 file.size ++
        "MB. Maximum: 25MB") }
  else
    { valid := true, error := none }

end Whisper

namespace Translation

/-- JavaScript `a || b` where both operands are optional strings
(`none` = `undefined`): `a` when present and non-empty, else `b`. -/
def jsOrOptStr (a b : Option String) : Option String :=
  match a with
  | some s => if s.isEmpty then b else some s
  | none => b

/-- `INDIC_LANGUAGE_CODES` from `translationService.ts` lines 31–58, in
source order. -/
def INDIC_LANGUAGE_CODES : List (String × String) :=
  [("en", "eng_Latn"), ("hi", "hin_Deva"), ("bn", "ben_Beng"),
   ("gu", "guj_Gujr"), ("kn", "kan_Knda"), ("ml", "mal_Mlym"),
   ("mr", "mar_Deva"), ("or", "ory_Orya"), ("pa", "pan_Guru"),
   ("ta", "tam_Taml"), ("te", "tel_Telu"), ("as", "asm_Beng"),
   ("brx", "brx_Deva"), ("doi", "doi_Deva"), ("gom", "gom_Deva"),
   ("kas_arab", "kas_Arab"), ("kas_dev", "kas_Deva"),
   ("mai", "mai_Deva"), ("mni_beng", "mni_Beng"),
   ("mni_mtei", "mni_Mtei"), ("ne", "npi_Deva"), ("sa", "san_Deva"),
   ("sat", "sat_Olck"), ("snd_arab", "snd_Arab"),
   ("snd_dev", "snd_Deva"), ("ur", "urd_Arab")]

/-- JavaScript object-literal property access `obj[key]` on a string map:
the value when the key is present, `none` (= `undefined`) otherwise. -/
def lookupStr : List (String × String) → String → Option String
  | [], _ => none
  | (k, v) :: rest, key => if key = k then some v else lookupStr rest key

/-- Truthiness of an optional string: `undefined` and `""` are falsy. -/
def truthyOptStr (x : Option String) : Bool :=
  match x with
  | some s => !s.isEmpty
  | none => false

/-- `INDIC_LANGUAGE_CODES[lang] || lang` as used at the top of
`translateText` and `translateBatch` to pick the wire language code. -/
def langCode (lang : String) : String :=
  jsOrStr (lookupStr INDIC_LANGUAGE_CODES lang) lang

/-- `TranslationRequest` from `translationService.ts`. -/
structure TranslationRequest where
  text : String
  sourceLang : String
  targetLang : String
  deriving DecidableEq, Repr

/-- `TranslationResponse` from `translationService.ts`.  `translatedText`
is optional here because the untyped `data.translated_text || data.text`
chain can leave it `undefined` at runtime. -/
structure TranslationResponse where
  translatedText : Option String
  sourceLang : String
  targetLang : String
  confidence : ℚ
  processingTime : ℚ
  deriving DecidableEq, Repr

/-- Parsed body of a response to `POST /translate` as read by the code:
optional `translated_text`, `text` and `confidence` fields. -/
structure TranslateBody where
  translated_text : Option String
  text : Option String
  confidence : Option ℚ
  deriving Repr

/-- The single request issued by `translateText`
(`translationService.ts` 63–100). -/
def translateTextRequests (env : Option String) : List HttpRequest :=
  [{ url := Api.API_BASE_URL env ++ "/translate", method := "POST" }]

/-- Response handling of `translateText`: throw
`Translation failed: <statusText>` when the response is not ok, else build
a `TranslationResponse` from the parsed body.  `elapsedMs` is
`Date.now() - startTime`, so `processingTime` is `elapsedMs / 1000`. -/
def translateText (request : TranslationRequest)
    (resp : HttpResponse TranslateBody) (elapsedMs : ℚ) :
    Except String TranslationResponse :=
  if resp.isOk then
    Except.ok
      { translatedText := jsOrOptStr resp.body.translated_text resp.body.text,
        sourceLang := request.sourceLang,
        targetLang := request.targetLang,
        confidence := jsOrNum resp.body.confidence 0.85,
        processingTime := elapsedMs / 1000 }
  else Except.error ("Translation failed: " ++ resp.statusText)

/-- `Array.prototype.map` with the element index, as in
`texts.map((text, idx) => ...)`. -/
def mapWithIndex (f : Nat → α → β) : Nat → List α → List β
  | _, [] => []
  | i, x :: xs => f i x :: mapWithIndex f (i + 1) xs

/-- Parsed body of a response to `POST /translate/batch` as read by the
code: a `translations` string array and an optional `confidences` array. -/
structure TranslateBatchBody where
  translations : List String
  confidences : Option (List ℚ)
  deriving Repr

/-- The single request issued by `translateBatch`
(`translationService.ts` 105–144). -/
def translateBatchRequests (env : Option String) : List HttpRequest :=
  [{ url := Api.API_BASE_URL env ++ "/translate/batch", method := "POST" }]

/-- Response handling of `translateBatch`
(`translationService.ts` 130–143): throw
`Batch translation failed: <statusText>` when the response is not ok, else
map each input text at index `idx` to a `TranslationResponse` with
`data.translations[idx] || ""`, the echoed language arguments,
`data.confidences?.[idx] || 0.85`, and the total elapsed seconds divided
by the number of texts. -/
def translateBatch (texts : List String) (sourceLang targetLang : String)
    (resp : HttpResponse TranslateBatchBody) (elapsedMs : ℚ) :
    Except String (List TranslationResponse) :=
  if resp.isOk then
    Except.ok (mapWithIndex (fun idx _ =>
      { translatedText :=
          some (jsOrStr (resp.body.translations.get? idx) ""),
        sourceLang := sourceLang,
        targetLang := targetLang,
        confidence :=
          jsOrNum (resp.body.confidences.bind (fun cs => cs.get? idx)) 0.85,
        processingTime := (elapsedMs / 1000) / (texts.length : ℚ) })
      0 texts)
  else Except.error ("Batch translation failed: " ++ resp.statusText)

/-- `String.prototype.trim` as called on `request.text`: strip leading
and trailing whitespace characters. -/
def jsTrim (s : String) : String :=
  ⟨((s.data.dropWhile Char.isWhitespace).reverse.dropWhile
      Char.isWhitespace).reverse⟩

/-- `validateTranslationRequest` (`translationService.ts` 205–235):
reject empty or whitespace-only text, then an unsupported source language,
then an unsupported target language, then equal languages; else accept.
`!request.text` (JS falsiness of the string) is `request.text = ""`. -/
def validateTranslationRequest (request : TranslationRequest) :
    ValidationResult :=
  if request.text = "" ∨ (jsTrim request.text).length = 0 then
    { valid := false, error := some "Text cannot be empty" }
  else if !(truthyOptStr (lookupStr INDIC_LANGUAGE_CODES request.sourceLang)) then
    { valid := false,
      error := some ("Unsupported source language: " ++ request.sourceLang) }
  else if !(truthyOptStr (lookupStr INDIC_LANGUAGE_CODES request.targetLang)) then
    { valid := false,
      error := some ("Unsupported target language: " ++ request.targetLang) }
  else if request.sourceLang = request.targetLang then
    { valid := false,
      error := some "Source and target languages cannot be the same" }
  else
    { valid := true, error := none }

end Translation

namespace LipSyncPage

/-- The React state of `pages/LipSync.tsx` that `handleStartLipSync`
touches, plus `intervalActive`, which records whether the
`setInterval` polling loop started at line 54 is still scheduled
(`clearInterval` sets it to `false`). -/
structure PageState where
  isProcessing : Bool
  progress : ℚ
  jobId : Option String
  outputVideoUrl : Option String
  error : Option String
  statusMessage : String
  intervalActive : Bool
  deriving DecidableEq, Repr

/-- The poll interval passed to `setInterval` (`LipSync.tsx` line 83):
2000 ms, i.e. every 2 seconds. -/
def pollIntervalMs : Nat := 2000

/-- The delay passed to `setTimeout` (`LipSync.tsx` line 92):
300000 ms, i.e. 5 minutes. -/
def timeoutDelayMs : Nat := 300000

/-- One tick of the status-polling callback (`LipSync.tsx` 56–79), given
the parsed status body for the poll:
`completed` clears the interval, sets progress 100, ends processing and
sets the output URL to `lipSyncApi.getDownloadUrl(newJobId)`;
`failed` clears the interval, ends processing and records
`status.error || "Processing failed"`;
`processing` only updates progress (`status.progress || 0`) and the
status message (`status.stage || "Processing..."`); any other status
changes nothing. -/
def pollTick (env : Option String) (newJobId : String)
    (status : Api.JobStatusBody) (s : PageState) : PageState :=
  if status.status = "completed" then
    { s with intervalActive := false,
             progress := 100,
             isProcessing := false,
             statusMessage := "Lip sync completed!",
             outputVideoUrl := some (Api.getDownloadUrl env newJobId) }
  else if status.status = "failed" then
    { s with intervalActive := false,
             isProcessing := false,
             error := some (jsOrStr status.error "Processing failed"),
             statusMessage := "" }
  else if status.status = "processing" then
    { s with progress := (jsOrNum status.progress 0),
             statusMessage := jsOrStr status.stage "Processing..." }
  else s

/-- The `setTimeout` callback (`LipSync.tsx` 86–92).  `captured` is the
value of the `isProcessing` binding closed over by the callback: React
state reads inside the closure see the value from the render in which
`handleStartLipSync` was created, not the current state. -/
def timeoutHandler (captured : Bool) (s : PageState) : PageState :=
  if captured then
    { s with intervalActive := false,
             isProcessing := false,
             error := some "Processing timeout. Please try again." }
  else s

/-- The `isProcessing` value captured by the `handleStartLipSync` closure
at click time.  The Start button is rendered only under
`!isProcessing` (`LipSync.tsx` line 435), so the render that created the
running handler had `isProcessing = false`; `setIsProcessing(true)` at
line 37 re-renders but does not change this binding. -/
def capturedIsProcessing : Bool := false

/-- The page state after the successful part of `handleStartLipSync`
before the first poll (`LipSync.tsx` 37–54): processing on, progress 10,
job id recorded, no error, no output URL, interval scheduled. -/
def afterGenerateState (newJobId : String) : PageState :=
  { isProcessing := true,
    progress := 10,
    jobId := some newJobId,
    outputVideoUrl := none,
    error := none,
    statusMessage := "Processing video...",
    intervalActive := true }

/-- The page state reached after `handleStartLipSync` succeeds and the
polling callback has run once for each status body in `polls`, oldest
first. -/
def runPolls (env : Option String) (newJobId : String)
    (polls : List Api.JobStatusBody) : PageState :=
  polls.foldl (fun s st => pollTick env newJobId st s)
    (afterGenerateState newJobId)

end LipSyncPage

namespace TranslatorPage

/-- The `Step` union type of `pages/Translator.tsx` line 24, in source
order: `input | processing | results`. -/
def translatorSteps : List String := ["input", "processing", "results"]

/-- The `Step` union type of `pages/TranslatePage.tsx` line 9, in source
order: `upload | configure | processing | preview`. -/
def translatePageSteps : List String :=
  ["upload", "configure", "processing", "preview"]

/-- The two fetch routes used by `startTranslation` in `Translator.tsx`:
`transcribeAudio` (to `/speech/transcribe`) and `translateText`
(to `/translate`). -/
inductive Route where
  | transcribe
  | translate
  deriving DecidableEq, Repr

/-- `inputMode` of `Translator.tsx` line 25. -/
inductive InputMode where
  | record
  | upload
  | text
  deriving DecidableEq, Repr

/-- An observable event of a `startTranslation` run: a state-setter call,
a fetch being issued, or a fetch resolving. -/
inductive TEvent where
  | setStep (step : String)
  | setProgress (p : Nat)
  | setStatus (msg : String)
  | requestSent (r : Route)
  | responseReceived (r : Route)
  deriving DecidableEq, Repr

/-- The event trace of a successful `startTranslation` run
(`Translator.tsx` 94–194): both awaits resolve and the transcribed (or
manual) text is non-empty, so no error is thrown.  For `record` and
`upload` the audio is transcribed first (the `translateText` call at line
154 is only reached after `await transcribeAudio` at line 114 resolved);
for `text` the manual text is used directly. -/
def startTranslationTrace (mode : InputMode) : List TEvent :=
  [TEvent.setStep "processing",
   TEvent.setProgress 0,
   TEvent.setStatus "Initializing..."] ++
  (if mode = InputMode.record ∨ mode = InputMode.upload then
    [TEvent.setStatus "Transcribing audio with Whisper...",
     TEvent.setProgress 20,
     TEvent.requestSent Route.transcribe,
     TEvent.responseReceived Route.transcribe,
     TEvent.setProgress 40]
  else
    [TEvent.setProgress 40]) ++
  [TEvent.setStatus "Translating with IndicTrans2...",
   TEvent.setProgress 60,
   TEvent.requestSent Route.translate,
   TEvent.responseReceived Route.translate,
   TEvent.setProgress 90,
   TEvent.setStatus "Finalizing results...",
   TEvent.setProgress 100,
   TEvent.setStep "results"]

/-- The progress values reported by a trace, in order. -/
def progressValues (trace : List TEvent) : List Nat :=
  trace.filterMap (fun e =>
    match e with
    | TEvent.setProgress p => some p
    | _ => none)

/-- The `setStep` values of a trace, in order. -/
def stepValues (trace : List TEvent) : List String :=
  trace.filterMap (fun e =>
    match e with
    | TEvent.setStep st => some st
    | _ => none)

end TranslatorPage

namespace TranslatePage

/-- The React state of `pages/TranslatePage.tsx` used by its wizard:
the current step (one of the strings of the `Step` union), the selected
file and the progress value. -/
structure TPState where
  step : String
  hasFile : Bool
  progress : Nat
  deriving DecidableEq, Repr

/-- Initial state: `useState("upload")`, no file, progress 0. -/
def initialState : TPState :=
  { step := "upload", hasFile := false, progress := 0 }

/-- `handleFileSelect` (`TranslatePage.tsx` 16–19): record the file and
move to `configure`. -/
def handleFileSelect (s : TPState) : TPState :=
  { s with hasFile := true, step := "configure" }

/-- The immediate effect of `startTranslation`
(`TranslatePage.tsx` 20–22): move to `processing`; the local
`currentProgress` counter starts at 0. -/
def startTranslation (s : TPState) : TPState :=
  { s with step := "processing" }

/-- One tick of the fake-progress interval (`TranslatePage.tsx` 23–30):
`currentProgress += 2`, publish it, and move to `preview` once it reaches
100.  The first component is the local `currentProgress` counter. -/
def progressTick (c : Nat) (s : TPState) : Nat × TPState :=
  let c' := c + 2
  if c' ≥ 100 then
    (c', { s with progress := c', step := "preview" })
  else
    (c', { s with progress := c' })

/-- The state after `n` interval ticks from counter value 0. -/
def runTicks (n : Nat) (s : TPState) : Nat × TPState :=
  Nat.rec (0, s) (fun _ p => progressTick p.1 p.2) n

end TranslatePage

/-!  Theorems settling the claims. -/

/-- C5: the client wrappers issue their fetch requests against exactly the
documented endpoint paths appended to the API base URL: `transcribeAudio`
posts to `/speech/transcribe`, `translateText` posts to `/translate`,
`translateBatch` posts to `/translate/batch`, `lipSyncApi.generate` posts
to `/lip-sync/generate`, `lipSyncApi.getStatus(jobId)` fetches
`/lip-sync/status/<jobId>`, and `lipSyncApi.download(jobId)` and
`getDownloadUrl(jobId)` use `/lip-sync/download/<jobId>`. -/
theorem C5_endpoint_paths (env : Option String) (jobId : String) :
    Whisper.transcribeAudioRequests env =
      [⟨Api.API_BASE_URL env ++ "/speech/transcribe", "POST"⟩] ∧
    Translation.translateTextRequests env =
      [⟨Api.API_BASE_URL env ++ "/translate", "POST"⟩] ∧
    Translation.translateBatchRequests env =
      [⟨Api.API_BASE_URL env ++ "/translate/batch", "POST"⟩] ∧
    Api.generateRequests env =
      [⟨Api.API_BASE_URL env ++ "/lip-sync/generate", "POST"⟩] ∧
    Api.getStatusRequests env jobId =
      [⟨Api.API_BASE_URL env ++ ("/lip-sync/status/" ++ jobId), "GET"⟩] ∧
    Api.downloadRequests env jobId =
      [⟨Api.API_BASE_URL env ++ ("/lip-sync/download/" ++ jobId), "GET"⟩] ∧
    Api.getDownloadUrl env jobId =
      Api.API_BASE_URL env ++ ("/lip-sync/download/" ++ jobId) :=
  ⟨rfl, rfl, rfl, rfl, rfl, rfl, rfl⟩

/-- C1 counterexample: `lipSyncApi.checkHealth` is a function of
`lipSyncApi`, yet on a response with status 500 (not 2xx) it does not
throw: it resolves with the parsed body. -/
theorem C1_checkHealth_no_throw :
    HttpResponse.isOk
      (⟨500, "Internal Server Error", (0 : Nat)⟩ : HttpResponse Nat) = false ∧
    Api.checkHealth
      (⟨500, "Internal Server Error", (0 : Nat)⟩ : HttpResponse Nat) =
      Except.ok 0 :=
  ⟨rfl, rfl⟩

/-- C1 (amended): `apiCall`, `transcribeAudio`, `detectLanguage`,
`translateText`, `translateBatch`, and `lipSyncApi.generate`, `getStatus`
and `download` throw an Error exactly when the HTTP response status is not
2xx, and otherwise resolve with a value obtained from the response body
(the parsed JSON body itself for `apiCall`, `transcribeAudio`, `generate`
and `getStatus`; the body of the blob for `download`; values derived from
the parsed body for `detectLanguage`, `translateText` and
`translateBatch`); `lipSyncApi.checkHealth` resolves with the parsed body
without ever throwing on the status; no request is ever retried — every
wrapper issues exactly one fetch request. -/
theorem C1_throw_on_non_2xx (env : Option String)
    (endpoint method jobId : String)
    (respA : HttpResponse Nat) (respT : HttpResponse Nat)
    (respD : HttpResponse Whisper.DetectLanguageBody)
    (reqTr : Translation.TranslationRequest)
    (respTr : HttpResponse Translation.TranslateBody)
    (texts : List String) (sl tl : String)
    (respB : HttpResponse Translation.TranslateBatchBody)
    (e1 e2 : ℚ)
    (respG : HttpResponse Api.GenerateBody)
    (respS : HttpResponse Api.JobStatusBody)
    (respDl : HttpResponse Api.Blob)
    (respH : HttpResponse Nat) :
    ((Api.apiCall respA).isOk = respA.isOk) ∧
    (respA.isOk = true → Api.apiCall respA = Except.ok respA.body) ∧
    ((Whisper.transcribeAudio respT).isOk = respT.isOk) ∧
    (respT.isOk = true →
      Whisper.transcribeAudio respT = Except.ok respT.body) ∧
    ((Whisper.detectLanguage respD).isOk = respD.isOk) ∧
    (respD.isOk = true →
      Whisper.detectLanguage respD = Except.ok respD.body.language) ∧
    ((Translation.translateText reqTr respTr e1).isOk = respTr.isOk) ∧
    ((Translation.translateBatch texts sl tl respB e2).isOk = respB.isOk) ∧
    ((Api.generate respG).isOk = respG.isOk) ∧
    (respG.isOk = true → Api.generate respG = Except.ok respG.body) ∧
    ((Api.getStatus respS).isOk = respS.isOk) ∧
    (respS.isOk = true → Api.getStatus respS = Except.ok respS.body) ∧
    ((Api.download respDl).isOk = respDl.isOk) ∧
    (respDl.isOk = true → Api.download respDl = Except.ok respDl.body) ∧
    (Api.checkHealth respH = Except.ok respH.body) ∧
    ((Api.apiCallRequests env endpoint method).length = 1) ∧
    ((Whisper.transcribeAudioRequests env).length = 1) ∧
    ((Whisper.detectLanguageRequests env).length = 1) ∧
    ((Translation.translateTextRequests env).length = 1) ∧
    ((Translation.translateBatchRequests env).length = 1) ∧
    ((Api.generateRequests env).length = 1) ∧
    ((Api.getStatusRequests env jobId).length = 1) ∧
    ((Api.downloadRequests env jobId).length = 1) ∧
    ((Api.checkHealthRequests env).length = 1) := by
  refine ⟨?_, ?_, ?_, ?_, ?_, ?_, ?_, ?_, ?_, ?_, ?_, ?_, ?_, ?_,
    rfl, rfl, rfl, rfl, rfl, rfl, rfl, rfl, rfl, rfl⟩ <;>
    first
      | (intro h
         simp only [Api.apiCall, Whisper.transcribeAudio,
           Whisper.detectLanguage, Api.generate, Api.getStatus,
           Api.download, h, if_true])
      | (simp only [Api.apiCall, Whisper.transcribeAudio,
          Whisper.detectLanguage, Translation.translateText,
          Translation.translateBatch, Api.generate, Api.getStatus,
          Api.download]
         cases hOk : HttpResponse.isOk _ <;>
           simp [hOk, Except.isOk, Except.toBool])

/-- Witness for C1: concrete 200 and 500 responses. -/
theorem C1_throw_on_non_2xx_witness :
    Api.apiCall (⟨200, "OK", (7 : Nat)⟩ : HttpResponse Nat) =
      Except.ok 7 :=
  ((C1_throw_on_non_2xx none "/translations" "GET" "job1"
      (⟨200, "OK", (7 : Nat)⟩ : HttpResponse Nat)
      (⟨200, "OK", (0 : Nat)⟩ : HttpResponse Nat)
      ⟨200, "OK", ⟨"en"⟩⟩
      ⟨"hello", "en", "hi"⟩ ⟨200, "OK", ⟨some "t", none, none⟩⟩
      ["a"] "en" "hi" ⟨200, "OK", ⟨["b"], none⟩⟩ 1 1
      ⟨200, "OK", ⟨"job1", none⟩⟩
      ⟨200, "OK", ⟨"processing", none, none, none⟩⟩
      ⟨200, "OK", ⟨[1, 2]⟩⟩
      (⟨200, "OK", (0 : Nat)⟩ : HttpResponse Nat)).2.1) rfl

/-- A string starting with a non-empty literal prefix is non-empty. -/
theorem append_ne_empty_of_prefix (p s : String) (hp : p.length ≠ 0) :
    p ++ s ≠ "" := by
  intro h
  have h2 := congrArg String.length h
  rw [String.length_append] at h2
  have h3 : p.length + s.length = 0 := h2
  omega

/-- C7: `validateAudioFile(file)` accepts (returns `valid: true` and no
error) exactly when the MIME type is one of `audio/mpeg`, `audio/wav`,
`audio/ogg`, `audio/mp4`, `audio/flac` and the size is at most
`25 * 1024 * 1024` bytes; otherwise it rejects with a non-empty error
message, and an unsupported format is reported regardless of the size
(the format check comes first). -/
theorem C7_validateAudioFile (f : Whisper.AudioFile) :
    (Whisper.validateAudioFile f = { valid := true, error := none } ↔
      (f.type ∈
        ["audio/mpeg", "audio/wav", "audio/ogg", "audio/mp4", "audio/flac"] ∧
       f.size ≤ 25 * 1024 * 1024)) ∧
    ((Whisper.validateAudioFile f).valid = false →
      ∃ msg, (Whisper.validateAudioFile f).error = some msg ∧ msg ≠ "") ∧
    (f.type ∉
        ["audio/mpeg", "audio/wav", "audio/ogg", "audio/mp4", "audio/flac"] →
      Whisper.validateAudioFile f =
        { valid := false,
          error := some ("Unsupported format: " ++ f.type ++
            ". Supported: MP3, WAV, OGG, MP4, FLAC") }) := by
  unfold Whisper.validateAudioFile
  by_cases hfmt :
      ["audio/mpeg", "audio/wav", "audio/ogg", "audio/mp4",
        "audio/flac"].contains f.type
  · by_cases hsz : f.size > 25 * 1024 * 1024
    · refine ⟨?_, ?_, ?_⟩
      · simp only [hfmt, Bool.not_true, if_false, hsz, if_true]
        constructor
        · intro h
          exact absurd (congrArg ValidationResult.valid h) (by simp)
        · intro ⟨_, h2⟩
          omega
      · intro _
        simp only [hfmt, Bool.not_true, if_false, hsz, if_true]
        refine ⟨_, rfl, ?_⟩
        have : "File too large: " ++
            (Whisper.mbToFixed2 f.size ++ "MB. Maximum: 25MB") ≠ "" :=
          append_ne_empty_of_prefix _ _ (by decide)
        simpa [String.append_assoc] using this
      · intro hmem
        exact absurd (List.mem_of_elem_eq_true hfmt) hmem
    · refine ⟨?_, ?_, ?_⟩
      · simp only [hfmt, Bool.not_true, if_false, hsz, if_false]
        constructor
        · intro _
          exact ⟨List.mem_of_elem_eq_true hfmt, by omega⟩
        · intro _
          rfl
      · intro h
        simp only [hfmt, Bool.not_true, if_false, hsz, if_false] at h
        simp at h
      · intro hmem
        exact absurd (List.mem_of_elem_eq_true hfmt) hmem
  · have hfmt' : (["audio/mpeg", "audio/wav", "audio/ogg", "audio/mp4",
        "audio/flac"].contains f.type) = false := by
      simpa using hfmt
    refine ⟨?_, ?_, ?_⟩
    · simp only [hfmt', Bool.not_false, if_true]
      constructor
      · intro h
        exact absurd (congrArg ValidationResult.valid h) (by simp)
      · intro ⟨h1, _⟩
        have h2 := List.elem_eq_true_of_mem h1
        rw [show (["audio/mpeg", "audio/wav", "audio/ogg", "audio/mp4",
          "audio/flac"].elem f.type) =
          (["audio/mpeg", "audio/wav", "audio/ogg", "audio/mp4",
            "audio/flac"].contains f.type) from rfl, hfmt'] at h2
        cases h2
    · intro _
      simp only [hfmt', Bool.not_false, if_true]
      refine ⟨_, rfl, ?_⟩
      have : "Unsupported format: " ++
          (f.type ++ ". Supported: MP3, WAV, OGG, MP4, FLAC") ≠ "" :=
        append_ne_empty_of_prefix _ _ (by decide)
      simpa [String.append_assoc] using this
    · intro _
      simp only [hfmt', Bool.not_false, if_true]

/-- Witness for C7: a 1 KB `audio/wav` file is accepted; a 1 KB file of
type `text/plain` is rejected with the unsupported-format error. -/
theorem C7_validateAudioFile_witness :
    Whisper.validateAudioFile ⟨"audio/wav", 1024⟩ =
      { valid := true, error := none } ∧
    Whisper.validateAudioFile ⟨"text/plain", 1024⟩ =
      { valid := false,
        error := some ("Unsupported format: " ++ "text/plain" ++
          ". Supported: MP3, WAV, OGG, MP4, FLAC") } :=
  ⟨(C7_validateAudioFile ⟨"audio/wav", 1024⟩).1.mpr
      ⟨by decide, by norm_num⟩,
    (C7_validateAudioFile ⟨"text/plain", 1024⟩).2.2 (by decide)⟩

/-- A string whose length is zero is the empty string. -/
theorem eq_empty_of_length_eq_zero (s : String) (h : s.length = 0) :
    s = "" := by
  cases s with
  | mk data =>
    cases data with
    | nil => rfl
    | cons a as => simp [String.length] at h

/-- `jsTrim` returns the empty string exactly on empty or all-whitespace
input. -/
theorem jsTrim_eq_empty_iff (s : String) :
    Translation.jsTrim s = "" ↔ ∀ c ∈ s.data, c.isWhitespace := by
  unfold Translation.jsTrim
  constructor
  · intro h
    have h0 : ((s.data.dropWhile Char.isWhitespace).reverse.dropWhile
        Char.isWhitespace).reverse = [] := congrArg String.data h
    rw [List.reverse_eq_nil_iff, List.dropWhile_eq_nil_iff] at h0
    have h1 : ∀ c ∈ s.data.dropWhile Char.isWhitespace, c.isWhitespace :=
      fun c hc => h0 c (List.mem_reverse.mpr hc)
    intro c hc
    rw [← List.takeWhile_append_dropWhile (p := Char.isWhitespace)
      (l := s.data)] at hc
    rcases List.mem_append.mp hc with h2 | h2
    · exact List.mem_takeWhile_imp h2
    · exact h1 c h2
  · intro hall
    have h0 : s.data.dropWhile Char.isWhitespace = [] :=
      List.dropWhile_eq_nil_iff.mpr hall
    rw [h0]
    rfl

/-- For an association list whose values are all non-empty, JS truthiness
of an object lookup coincides with key membership. -/
theorem truthy_lookup (l : List (String × String))
    (hl : ∀ p ∈ l, ¬p.2 = "") (k : String) :
    Translation.truthyOptStr (Translation.lookupStr l k) =
      (Translation.lookupStr l k).isSome := by
  induction l with
  | nil => rfl
  | cons p rest ih =>
    obtain ⟨a, b⟩ := p
    have hb : ¬b = "" := hl ⟨a, b⟩ (List.mem_cons_self _ _)
    simp only [Translation.lookupStr]
    by_cases hk : k = a
    · rw [if_pos hk]
      simp only [Translation.truthyOptStr, Option.isSome_some,
        Bool.not_eq_true']
      exact Bool.eq_false_iff.mpr (fun hemp =>
        hb ((String.isEmpty_iff b).mp hemp))
    · rw [if_neg hk]
      exact ih (fun q hq => hl q (List.mem_cons_of_mem _ hq))

/-- C8: `validateTranslationRequest(request)` returns `valid: false` with
an error exactly when the text is empty or whitespace-only, or the source
language is not a key of `INDIC_LANGUAGE_CODES`, or the target language is
not a key, or the source and target languages are equal; otherwise it
returns `valid: true` with no error. -/
theorem C8_validateTranslationRequest (r : Translation.TranslationRequest) :
    ((Translation.validateTranslationRequest r).valid = false ↔
      ((∀ c ∈ r.text.data, c.isWhitespace) ∨
       Translation.lookupStr Translation.INDIC_LANGUAGE_CODES
         r.sourceLang = none ∨
       Translation.lookupStr Translation.INDIC_LANGUAGE_CODES
         r.targetLang = none ∨
       r.sourceLang = r.targetLang)) ∧
    ((Translation.validateTranslationRequest r).valid = false →
      ∃ msg, (Translation.validateTranslationRequest r).error = some msg ∧
        msg ≠ "") ∧
    ((Translation.validateTranslationRequest r).valid = true →
      Translation.validateTranslationRequest r =
        { valid := true, error := none }) := by
  have hvals : ∀ p ∈ Translation.INDIC_LANGUAGE_CODES, ¬p.2 = "" := by
    decide
  have hs := truthy_lookup Translation.INDIC_LANGUAGE_CODES hvals r.sourceLang
  have ht := truthy_lookup Translation.INDIC_LANGUAGE_CODES hvals r.targetLang
  unfold Translation.validateTranslationRequest
  rw [hs, ht]
  by_cases h1 : r.text = "" ∨ (Translation.jsTrim r.text).length = 0
  · rw [if_pos h1]
    have hws : ∀ c ∈ r.text.data, c.isWhitespace := by
      rcases h1 with h | h
      · intro c hc
        rw [h] at hc
        cases hc
      · exact (jsTrim_eq_empty_iff r.text).mp (eq_empty_of_length_eq_zero _ h)
    exact ⟨⟨fun _ => Or.inl hws, fun _ => rfl⟩,
      fun _ => ⟨"Text cannot be empty", rfl, by decide⟩,
      fun h => absurd h (by decide)⟩
  · rw [if_neg h1]
    have hws : ¬(∀ c ∈ r.text.data, c.isWhitespace) := by
      intro hall
      exact h1 (Or.inr (by rw [(jsTrim_eq_empty_iff r.text).mpr hall]; rfl))
    cases hsrc : Translation.lookupStr Translation.INDIC_LANGUAGE_CODES
        r.sourceLang with
    | none =>
      rw [if_pos (by rfl)]
      exact ⟨⟨fun _ => Or.inr (Or.inl rfl), fun _ => rfl⟩,
        fun _ => ⟨"Unsupported source language: " ++ r.sourceLang, rfl,
          append_ne_empty_of_prefix _ _ (by decide)⟩,
        fun h => Bool.noConfusion h⟩
    | some vs =>
      rw [if_neg (by simp)]
      cases htgt : Translation.lookupStr Translation.INDIC_LANGUAGE_CODES
          r.targetLang with
      | none =>
        rw [if_pos (by rfl)]
        exact ⟨⟨fun _ => Or.inr (Or.inr (Or.inl rfl)), fun _ => rfl⟩,
          fun _ => ⟨"Unsupported target language: " ++ r.targetLang, rfl,
            append_ne_empty_of_prefix _ _ (by decide)⟩,
          fun h => Bool.noConfusion h⟩
      | some vt =>
        rw [if_neg (by simp)]
        by_cases heq : r.sourceLang = r.targetLang
        · rw [if_pos heq]
          exact ⟨⟨fun _ => Or.inr (Or.inr (Or.inr heq)), fun _ => rfl⟩,
            fun _ => ⟨"Source and target languages cannot be the same",
              rfl, by decide⟩,
            fun h => absurd h (by decide)⟩
        · rw [if_neg heq]
          refine ⟨⟨fun h => absurd h (by decide), fun h => ?_⟩,
            fun h => absurd h (by decide), fun _ => rfl⟩
          rcases h with h | h | h | h
          · exact absurd h hws
          · exact Option.noConfusion h
          · exact Option.noConfusion h
          · exact absurd h heq

/-- Witness for C8: translating non-blank text from `en` to `hi` is
accepted. -/
theorem C8_validateTranslationRequest_witness :
    Translation.validateTranslationRequest ⟨"hello", "en", "hi"⟩ =
      { valid := true, error := none } :=
  (C8_validateTranslationRequest ⟨"hello", "en", "hi"⟩).2.2 (by decide)

/-- `mapWithIndex` with an element-independent function is a map over the
index range. -/
theorem mapWithIndex_const_elem {α β : Type} (g : Nat → β) (i : Nat)
    (l : List α) :
    Translation.mapWithIndex (fun idx _ => g idx) i l =
      (List.range l.length).map (fun j => g (i + j)) := by
  induction l generalizing i with
  | nil => rfl
  | cons x xs ih =>
    simp only [Translation.mapWithIndex, List.length_cons,
      List.range_succ_eq_map, List.map_cons, List.map_map]
    congr 1
    rw [ih]
    apply List.map_congr_left
    intro j _
    simp only [Function.comp_apply]
    congr 1
    omega

/-- `x || ""` on an optional string is just its default-empty value. -/
theorem jsOrStr_empty (o : Option String) : jsOrStr o "" = o.getD "" := by
  cases o with
  | none => rfl
  | some s =>
    simp only [jsOrStr, Option.getD_some]
    by_cases h : s.isEmpty = true
    · rw [if_pos h]
      exact ((String.isEmpty_iff s).mp h).symm
    · rw [if_neg h]

/-- C9: a successful `translateBatch(texts, sourceLang, targetLang)`
returns exactly one `TranslationResponse` per input text, in input order:
the `j`-th `translatedText` is the backend `translations[j]` (or the empty
string when absent), `sourceLang` and `targetLang` echo the arguments,
`confidence` is `confidences?.[j] || 0.85` (in particular 0.85 whenever the
backend omits `confidences`), and every `processingTime` is the total
elapsed seconds divided by the number of texts. -/
theorem C9_translateBatch (texts : List String) (sl tl : String)
    (resp : HttpResponse Translation.TranslateBatchBody) (elapsedMs : ℚ)
    (hOk : resp.isOk = true) :
    Translation.translateBatch texts sl tl resp elapsedMs =
      Except.ok ((List.range texts.length).map (fun j =>
        { translatedText := some ((resp.body.translations.get? j).getD ""),
          sourceLang := sl,
          targetLang := tl,
          confidence :=
            jsOrNum (resp.body.confidences.bind (fun cs => cs.get? j)) 0.85,
          processingTime :=
            (elapsedMs / 1000) / (texts.length : ℚ) })) ∧
    ((List.range texts.length).map (fun j =>
        ({ translatedText := some ((resp.body.translations.get? j).getD ""),
           sourceLang := sl,
           targetLang := tl,
           confidence :=
             jsOrNum (resp.body.confidences.bind (fun cs => cs.get? j)) 0.85,
           processingTime :=
             (elapsedMs / 1000) / (texts.length : ℚ) } :
          Translation.TranslationResponse))).length = texts.length ∧
    (resp.body.confidences = none →
      ∀ r ∈ (List.range texts.length).map (fun j =>
        ({ translatedText := some ((resp.body.translations.get? j).getD ""),
           sourceLang := sl,
           targetLang := tl,
           confidence :=
             jsOrNum (resp.body.confidences.bind (fun cs => cs.get? j)) 0.85,
           processingTime :=
             (elapsedMs / 1000) / (texts.length : ℚ) } :
          Translation.TranslationResponse)),
        r.confidence = 0.85) := by
  refine ⟨?_, by simp, ?_⟩
  · unfold Translation.translateBatch
    rw [if_pos hOk]
    congr 1
    rw [mapWithIndex_const_elem
      (fun idx =>
        ({ translatedText :=
             some (jsOrStr (resp.body.translations.get? idx) ""),
           sourceLang := sl,
           targetLang := tl,
           confidence :=
             jsOrNum (resp.body.confidences.bind (fun cs => cs.get? idx))
               0.85,
           processingTime :=
             (elapsedMs / 1000) / (texts.length : ℚ) } :
          Translation.TranslationResponse)) 0 texts]
    apply List.map_congr_left
    intro j _
    rw [Nat.zero_add, jsOrStr_empty]
  · intro hc r hr
    rcases List.mem_map.mp hr with ⟨j, _, rfl⟩
    rw [hc]
    rfl

/-- Witness for C9: two texts, a 200 response with one translation and no
confidences: two responses in order, second translation defaulting to the
empty string, both confidences 0.85 and both processing times 1.5 s. -/
theorem C9_translateBatch_witness :
    Translation.translateBatch ["a", "b"] "en" "hi"
      (⟨200, "OK", ⟨["x"], none⟩⟩ :
        HttpResponse Translation.TranslateBatchBody) 3000 =
      Except.ok
        [{ translatedText := some "x", sourceLang := "en",
           targetLang := "hi", confidence := 0.85, processingTime := 3/2 },
         { translatedText := some "", sourceLang := "en",
           targetLang := "hi", confidence := 0.85,
           processingTime := 3/2 }] := by
  rw [(C9_translateBatch ["a", "b"] "en" "hi"
    (⟨200, "OK", ⟨["x"], none⟩⟩ :
      HttpResponse Translation.TranslateBatchBody) 3000 rfl).1]
  congr 1
  norm_num [List.range_succ, jsOrNum]

/-- A poll whose status body reports `processing` only updates progress
and the status message. -/
theorem pollTick_processing (env : Option String) (jobId : String)
    (st : Api.JobStatusBody) (s : LipSyncPage.PageState)
    (h : st.status = "processing") :
    LipSyncPage.pollTick env jobId st s =
      { s with progress := jsOrNum st.progress 0,
               statusMessage := jsOrStr st.stage "Processing..." } := by
  unfold LipSyncPage.pollTick
  rw [h]
  rw [if_neg (by decide), if_neg (by decide), if_pos rfl]

/-- Polls that all report `processing` keep the page processing, the
interval scheduled and the error unset, from any state with those
properties. -/
theorem foldl_processing_invariant (env : Option String) (jobId : String)
    (polls : List Api.JobStatusBody)
    (hp : ∀ st ∈ polls, st.status = "processing")
    (s : LipSyncPage.PageState)
    (h1 : s.isProcessing = true) (h2 : s.intervalActive = true)
    (h3 : s.error = none) :
    (polls.foldl (fun s st => LipSyncPage.pollTick env jobId st s)
        s).isProcessing = true ∧
    (polls.foldl (fun s st => LipSyncPage.pollTick env jobId st s)
        s).intervalActive = true ∧
    (polls.foldl (fun s st => LipSyncPage.pollTick env jobId st s)
        s).error = none := by
  induction polls generalizing s with
  | nil => exact ⟨h1, h2, h3⟩
  | cons st rest ih =>
    simp only [List.foldl_cons]
    rw [pollTick_processing env jobId st s
      (hp st (List.mem_cons_self _ _))]
    exact ih (fun q hq => hp q (List.mem_cons_of_mem _ hq)) _ h1 h2 h3

/-- C2 (code defect): the status poll interval is 2000 ms and the timeout
delay is 300000 ms (5 minutes) as claimed, but when the job is still
`processing` at the 5-minute mark the timeout callback changes nothing:
the `isProcessing` binding it closed over is the stale `false` of the
render that created the handler, so the interval is not cleared, the
processing state is not ended, and no timeout error is reported. -/
theorem C2_timeout_is_dead_code (env : Option String) (jobId : String)
    (polls : List Api.JobStatusBody)
    (hp : ∀ st ∈ polls, st.status = "processing") :
    LipSyncPage.pollIntervalMs = 2000 ∧
    LipSyncPage.timeoutDelayMs = 300000 ∧
    LipSyncPage.timeoutHandler LipSyncPage.capturedIsProcessing
        (LipSyncPage.runPolls env jobId polls) =
      LipSyncPage.runPolls env jobId polls ∧
    (LipSyncPage.runPolls env jobId polls).isProcessing = true ∧
    (LipSyncPage.runPolls env jobId polls).intervalActive = true ∧
    (LipSyncPage.runPolls env jobId polls).error = none := by
  have hinv := foldl_processing_invariant env jobId polls hp
    (LipSyncPage.afterGenerateState jobId) rfl rfl rfl
  exact ⟨rfl, rfl, rfl, hinv.1, hinv.2.1, hinv.2.2⟩

/-- Witness for C2: after 150 polls (5 minutes at 2-second intervals) of a
job that keeps reporting `processing`, the page is still processing and
the timeout callback leaves the state untouched. -/
theorem C2_timeout_is_dead_code_witness :
    (LipSyncPage.runPolls none "job1"
      (List.replicate 150
        ⟨"processing", some 42, some "Rendering", none⟩)).isProcessing =
      true ∧
    LipSyncPage.timeoutHandler LipSyncPage.capturedIsProcessing
        (LipSyncPage.runPolls none "job1"
          (List.replicate 150
            ⟨"processing", some 42, some "Rendering", none⟩)) =
      LipSyncPage.runPolls none "job1"
        (List.replicate 150
          ⟨"processing", some 42, some "Rendering", none⟩) := by
  have h := C2_timeout_is_dead_code none "job1"
    (List.replicate 150 ⟨"processing", some 42, some "Rendering", none⟩)
    (fun st hst => by rw [List.eq_of_mem_replicate hst])
  exact ⟨h.2.2.2.1, h.2.2.1⟩

/-- C3: one poll of the lip-sync status loop behaves per status:
`completed` clears the interval, sets progress 100, ends processing and
sets the output video URL to the download URL for the job id; `failed`
clears the interval, ends processing and records the reported error (or
the default `Processing failed`); `processing` only updates progress and
the status message, leaving the interval scheduled. -/
theorem C3_pollTick_branches (env : Option String) (jobId : String)
    (prog : Option ℚ) (stage err : Option String)
    (s : LipSyncPage.PageState) :
    LipSyncPage.pollTick env jobId ⟨"completed", prog, stage, err⟩ s =
      { s with intervalActive := false,
               progress := 100,
               isProcessing := false,
               statusMessage := "Lip sync completed!",
               outputVideoUrl := some (Api.getDownloadUrl env jobId) } ∧
    LipSyncPage.pollTick env jobId ⟨"failed", prog, stage, err⟩ s =
      { s with intervalActive := false,
               isProcessing := false,
               error := some (jsOrStr err "Processing failed"),
               statusMessage := "" } ∧
    LipSyncPage.pollTick env jobId ⟨"processing", prog, stage, err⟩ s =
      { s with progress := jsOrNum prog 0,
               statusMessage := jsOrStr stage "Processing..." } := by
  refine ⟨?_, ?_, ?_⟩ <;> simp [LipSyncPage.pollTick]

/-- C4 counterexample: the Translator wizard of `pages/Translator.tsx` is
a multi-step wizard of the app whose step machine is not
upload → configure → processing → preview: its step union type has the
values input, processing, results, contains none of upload, configure,
preview, and its successful run sets the step to processing and then
results. -/
theorem C4_translator_steps_differ :
    TranslatorPage.translatorSteps ≠ TranslatorPage.translatePageSteps ∧
    "upload" ∉ TranslatorPage.translatorSteps ∧
    "configure" ∉ TranslatorPage.translatorSteps ∧
    "preview" ∉ TranslatorPage.translatorSteps ∧
    TranslatorPage.stepValues
        (TranslatorPage.startTranslationTrace
          TranslatorPage.InputMode.record) =
      ["processing", "results"] :=
  ⟨by decide, by decide, by decide, by decide, rfl⟩

/-- C4 (amended): the TranslatePage wizard is driven through
upload → configure → processing → preview: it starts at upload, file
selection moves it to configure, `startTranslation` to processing, the
progress interval keeps it at processing for the first 49 ticks and moves
it to preview with progress 100 at tick 50.  The Translator wizard is
instead driven through input → processing → results. -/
theorem C4_wizard_step_order :
    TranslatePage.initialState.step = "upload" ∧
    (TranslatePage.handleFileSelect TranslatePage.initialState).step =
      "configure" ∧
    (TranslatePage.startTranslation
      (TranslatePage.handleFileSelect TranslatePage.initialState)).step =
      "processing" ∧
    ((List.range 50).all (fun k =>
      (TranslatePage.runTicks k
        (TranslatePage.startTranslation
          (TranslatePage.handleFileSelect
            TranslatePage.initialState))).2.step == "processing")) =
      true ∧
    (TranslatePage.runTicks 50
      (TranslatePage.startTranslation
        (TranslatePage.handleFileSelect
          TranslatePage.initialState))).2.step = "preview" ∧
    (TranslatePage.runTicks 50
      (TranslatePage.startTranslation
        (TranslatePage.handleFileSelect
          TranslatePage.initialState))).2.progress = 100 ∧
    TranslatorPage.translatorSteps = ["input", "processing", "results"] ∧
    TranslatorPage.stepValues
        (TranslatorPage.startTranslationTrace
          TranslatorPage.InputMode.record) =
      ["processing", "results"] :=
  ⟨rfl, rfl, rfl, by decide, by decide, by decide, rfl, rfl⟩

/-- C6: in a successful `startTranslation` run with recorded or uploaded
audio, the `/translate` request is issued only after the
`/speech/transcribe` request has resolved, and the reported progress takes
the values 0, 20, 40, 60, 90, 100 in that order, never decreasing. -/
theorem C6_sequential_fetches_monotone_progress :
    ((TranslatorPage.startTranslationTrace
        TranslatorPage.InputMode.record).indexOf
          (TranslatorPage.TEvent.responseReceived
            TranslatorPage.Route.transcribe) <
      (TranslatorPage.startTranslationTrace
        TranslatorPage.InputMode.record).indexOf
          (TranslatorPage.TEvent.requestSent
            TranslatorPage.Route.translate)) ∧
    TranslatorPage.TEvent.requestSent TranslatorPage.Route.translate ∈
      TranslatorPage.startTranslationTrace TranslatorPage.InputMode.record ∧
    TranslatorPage.progressValues
        (TranslatorPage.startTranslationTrace
          TranslatorPage.InputMode.record) =
      [0, 20, 40, 60, 90, 100] ∧
    List.Sorted (· ≤ ·)
      (TranslatorPage.progressValues
        (TranslatorPage.startTranslationTrace
          TranslatorPage.InputMode.record)) ∧
    ((TranslatorPage.startTranslationTrace
        TranslatorPage.InputMode.upload).indexOf
          (TranslatorPage.TEvent.responseReceived
            TranslatorPage.Route.transcribe) <
      (TranslatorPage.startTranslationTrace
        TranslatorPage.InputMode.upload).indexOf
          (TranslatorPage.TEvent.requestSent
            TranslatorPage.Route.translate)) ∧
    TranslatorPage.TEvent.requestSent TranslatorPage.Route.translate ∈
      TranslatorPage.startTranslationTrace TranslatorPage.InputMode.upload ∧
    TranslatorPage.progressValues
        (TranslatorPage.startTranslationTrace
          TranslatorPage.InputMode.upload) =
      [0, 20, 40, 60, 90, 100] ∧
    List.Sorted (· ≤ ·)
      (TranslatorPage.progressValues
        (TranslatorPage.startTranslationTrace
          TranslatorPage.InputMode.upload)) := by
  refine ⟨by decide, by decide, rfl, by decide, by decide, by decide,
    rfl, by decide⟩
